import Mathlib

/-!
Shallow embedding of the battle core of the `puzzle-tactics` repository
(`src/battle/*.rs`, `src/bridge/events.rs`).  Rust `f32` values are modelled
as exact rationals (`ℚ`), `u32`/`u8`/`i32` as `Nat`/`Int` with explicit
wrap-around (`% 2^32`) where overflow can occur, Bevy ECS queries as lists,
and the `HashMap`-backed battle grid as an association list with
pairwise-distinct keys.
-/

namespace PT

/-- Tile colours, from `src/puzzle/tile.rs` (used as unit classes). -/
inductive TileType where
  | Red | Blue | Green | Yellow | Purple
deriving DecidableEq, Repr

/-- Rust `Team` component, from `src/battle/unit.rs`. -/
inductive Team where
  | Player | Enemy
deriving DecidableEq, Repr

/-- Rust `UnitStats` component, from `src/battle/unit.rs` (all `f32` fields as `ℚ`,
`attack_range : i32` as `ℤ`). -/
structure UnitStats where
  health : ℚ
  max_health : ℚ
  attack : ℚ
  attack_speed : ℚ
  attack_range : ℤ
  mana : ℚ
  max_mana : ℚ
  move_speed : ℚ
  defense : ℚ
  crit_chance : ℚ
  ability_power : ℚ
  mana_regen : ℚ
deriving DecidableEq, Repr

namespace UnitStats

/-- Rust `UnitStats::take_damage` (unit.rs lines 111-114): flat defense subtraction
with a floor of 1 damage, health clamped to be nonnegative. -/
def take_damage (s : UnitStats) (amount : ℚ) : UnitStats :=
  let reduced := max (amount - s.defense) 1
  { s with health := max (s.health - reduced) 0 }

/-- Rust `UnitStats::take_calculated_damage` (unit.rs lines 118-123):
percentage-based defense reduction capped at 80%, floor of 1 damage, health
clamped to be nonnegative. -/
def take_calculated_damage (s : UnitStats) (amount : ℚ) : UnitStats :=
  let reduction := min (s.defense / 100) (4/5)
  let reduced := amount * (1 - reduction)
  let final_damage := max reduced 1
  { s with health := max (s.health - final_damage) 0 }

end UnitStats

/-- Spec-side formula (written from the spec's words, for the refinement
comparison): the damage formula the spec attributes to `take_damage` — new
health after percentage-reduced, floor-clamped damage. -/
def specPercentDamageHealth (health defense amount : ℚ) : ℚ :=
  max (health - max (amount * (1 - min (defense / 100) (4/5))) 1) 0

/-- The flat-defense damage formula actually implemented by `take_damage`
(written out from the source, for the amended claim). -/
def specFlatDamageHealth (health defense amount : ℚ) : ℚ :=
  max (health - max (amount - defense) 1) 0

/-- A sample unit: defense 50, health 100, remaining fields at the
`Default for UnitStats` values (unit.rs lines 27-44). -/
def sampleDefender : UnitStats :=
  { health := 100, max_health := 100, attack := 10, attack_speed := 1
    attack_range := 1, mana := 0, max_mana := 100, move_speed := 1
    defense := 50, crit_chance := 0, ability_power := 0, mana_regen := 1 }

-- ============================================================
-- DamageCalculator (combat.rs lines 12-51)
-- ============================================================

namespace DamageCalculator

/-- Rust `DamageCalculator::CRIT_MULTIPLIER` (1.5). -/
def CRIT_MULTIPLIER : ℚ := 3/2

/-- Rust `DamageCalculator::MAX_DEFENSE_REDUCTION` (0.8). -/
def MAX_DEFENSE_REDUCTION : ℚ := 4/5

/-- Rust `DamageCalculator::MIN_DAMAGE` (1.0). -/
def MIN_DAMAGE : ℚ := 1

/-- Rust `DamageCalculator::apply_crit`. -/
def apply_crit (base_damage : ℚ) (is_crit : Bool) : ℚ :=
  if is_crit then base_damage * CRIT_MULTIPLIER else base_damage

/-- Rust `DamageCalculator::apply_defense`. -/
def apply_defense (damage defense : ℚ) : ℚ :=
  let reduction := min (defense / 100) MAX_DEFENSE_REDUCTION
  damage * (1 - reduction)

/-- Rust `DamageCalculator::calculate`. -/
def calculate (base_damage : ℚ) (is_crit : Bool) (defense : ℚ) : ℚ :=
  let after_crit := apply_crit base_damage is_crit
  let final_damage := apply_defense after_crit defense
  max final_damage MIN_DAMAGE

end DamageCalculator

-- ============================================================
-- WaveManager (wave.rs lines 8-59)
-- ============================================================

/-- Rust `WaveManager` resource (`current_wave`, `enemies_remaining` are `u32`,
timers are `f32`). -/
structure WaveManager where
  current_wave : ℕ
  enemies_remaining : ℕ
  wave_timer : ℚ
  spawn_delay : ℚ
  wave_active : Bool
deriving DecidableEq, Repr

/-- Rust `Default for WaveManager` (wave.rs lines 17-27). -/
def waveManagerDefault : WaveManager :=
  { current_wave := 0, enemies_remaining := 0, wave_timer := 3
    spawn_delay := 0, wave_active := false }

namespace WaveManager

/-- Rust `WaveManager::enemies_for_wave`: `(3 + wave * 2).min(12)` in `u32`
arithmetic — the multiplication and addition wrap modulo `2^32`. -/
def enemies_for_wave (wave : ℕ) : ℕ :=
  min ((3 + (wave * 2) % 2 ^ 32) % 2 ^ 32) 12

/-- Rust `WaveManager::start_wave` (wave.rs lines 30-35). -/
def start_wave (wm : WaveManager) (wave_number : ℕ) : WaveManager :=
  { wm with
    current_wave := wave_number
    wave_active := true
    spawn_delay := 1/2
    enemies_remaining := enemies_for_wave wave_number }

end WaveManager

-- ============================================================
-- Attack cooldown pass (combat.rs lines 252-260)
-- ============================================================

/-- The per-unit data the cooldown loop of `attack_system` touches:
`AttackCooldown`, `UnitStats::attack_speed` and the (ignored) `Target`. -/
structure CUnit where
  cooldown : ℚ
  speed : ℚ
  target : Option ℕ
deriving DecidableEq, Repr

/-- One unit's cooldown step: `cooldown.0 -= delta; if cooldown.0 <= 0.0
{ cooldown.0 = 1.0 / stats.attack_speed }`. -/
def tickCooldown (c s delta : ℚ) : ℚ :=
  let c1 := c - delta
  if c1 ≤ 0 then 1 / s else c1

/-- The final loop of `attack_system`: runs over every unit of the attacker
query, with or without a target. -/
def cooldownPass (units : List CUnit) (delta : ℚ) : List CUnit :=
  units.map fun u => { u with cooldown := tickCooldown u.cooldown u.speed delta }

-- ============================================================
-- BattleGrid (hex_grid.rs)
-- ============================================================

/-- Rust `HexPosition` component (axial `q`,`r`, both `i32`). -/
structure HexPosition where
  q : ℤ
  r : ℤ
deriving DecidableEq, Repr

/-- Rust `BATTLE_GRID_COLS` from `prelude.rs`. -/
def BATTLE_GRID_COLS : ℤ := 7

/-- Rust `BATTLE_GRID_ROWS` from `prelude.rs`. -/
def BATTLE_GRID_ROWS : ℤ := 4

/-- Rust `BattleGrid::is_valid_position`; Rust `i32` division truncates toward
zero (`Int.tdiv`), so the bounds are `-3 ≤ q ≤ 3`, `-2 ≤ r ≤ 2`. -/
def is_valid_position (p : HexPosition) : Bool :=
  decide (Int.tdiv (-BATTLE_GRID_COLS) 2 ≤ p.q) &&
  decide (p.q ≤ Int.tdiv BATTLE_GRID_COLS 2) &&
  decide (Int.tdiv (-BATTLE_GRID_ROWS) 2 ≤ p.r) &&
  decide (p.r ≤ Int.tdiv BATTLE_GRID_ROWS 2)

/-- The `units: HashMap<HexPosition, Entity>` field of `BattleGrid`,
as an association list whose keys are pairwise distinct. -/
abbrev Grid := List (HexPosition × ℕ)

/-- Rust `HashMap::get` on the grid. -/
def glookup : Grid → HexPosition → Option ℕ
  | [], _ => none
  | e :: es, p => if e.1 = p then some e.2 else glookup es p

/-- Rust `HashMap::remove` on the grid (drops every entry at the key; with
distinct keys, the one entry). -/
def gerase : Grid → HexPosition → Grid
  | [], _ => []
  | e :: es, p => if e.1 = p then gerase es p else e :: gerase es p

/-- Rust `BattleGrid::is_occupied`. -/
def goccupied (g : Grid) (p : HexPosition) : Bool :=
  (glookup g p).isSome

/-- The `HashMap` key-uniqueness invariant. -/
def keysNodup (g : Grid) : Prop :=
  (g.map Prod.fst).Nodup

/-- Rust `BattleGrid::move_unit` (hex_grid.rs lines 98-107): remove the unit at
`src`; if `dst` is now unoccupied and valid, insert it at `dst` and return
true, otherwise reinsert it at `src` and return false. -/
def move_unit (g : Grid) (src dst : HexPosition) : Bool × Grid :=
  match glookup g src with
  | none => (false, g)
  | some entity =>
    let g1 := gerase g src
    if goccupied g1 dst = false ∧ is_valid_position dst = true then
      (true, (dst, entity) :: g1)
    else
      (false, (src, entity) :: g1)

-- ============================================================
-- Targeting (combat.rs lines 58-94)
-- ============================================================

/-- Rust `HexPosition::distance` — half the sum of coordinate-difference absolute
values (always even, so `i32` truncation is exact). -/
def hexDistance (a b : HexPosition) : ℕ :=
  ((a.q - b.q).natAbs + (a.q + a.r - b.q - b.r).natAbs + (a.r - b.r).natAbs) / 2

/-- The data `targeting_system` reads for one unit: entity id, position,
team, and the `StealthBuff` component if attached (its `remaining` field;
the system only tests component presence, never the value). -/
structure TUnit where
  id : ℕ
  pos : HexPosition
  team : Team
  stealth : Option ℚ
deriving DecidableEq, Repr

/-- One step of the closest-target scan in `targeting_system`: skip self,
same team, and any unit carrying a `StealthBuff`; otherwise keep the
strictly closer candidate (first seen wins ties). -/
def selectTargetFold (u : TUnit) (best : Option (TUnit × ℕ)) (v : TUnit) :
    Option (TUnit × ℕ) :=
  if u.id = v.id ∨ u.team = v.team ∨ v.stealth.isSome then best
  else
    let dist := hexDistance u.pos v.pos
    match best with
    | none => some (v, dist)
    | some (_, d) => if dist < d then some (v, dist) else best

/-- The target `targeting_system` assigns to unit `u` given the scanned
`unit_data` list. -/
def targeting_select (units : List TUnit) (u : TUnit) : Option TUnit :=
  (units.foldl (selectTargetFold u) none).map Prod.fst

/-- A Player unit at the origin with no stealth. -/
def tgtSeeker : TUnit := ⟨1, ⟨0, 0⟩, Team.Player, none⟩

/-- An Enemy unit adjacent to the seeker whose `StealthBuff` has
`remaining = 0` but is still attached. -/
def tgtStealthZero : TUnit := ⟨2, ⟨1, 0⟩, Team.Enemy, some 0⟩

/-- The same Enemy unit once the `StealthBuff` component is removed. -/
def tgtNoStealth : TUnit := ⟨2, ⟨1, 0⟩, Team.Enemy, none⟩

-- ============================================================
-- Unit summoning (bridge/events.rs lines 71-142)
-- ============================================================

/-- The components `summon_unit` queries for one existing unit:
entity id, `UnitType`, `StarRank` (`u8`), `HexPosition`, plus its team
(present on every spawned unit). -/
structure SUnit where
  id : ℕ
  unit_type : TileType
  star : ℕ
  pos : HexPosition
  team : Team
deriving DecidableEq, Repr

/-- Stable insertion used to model `Vec::sort_by_key` (a stable sort):
equal-rank units keep their query order. -/
def insertByStar (x : SUnit) : List SUnit → List SUnit
  | [] => [x]
  | y :: ys => if x.star ≤ y.star then x :: y :: ys else y :: insertByStar x ys

/-- Stable sort by `StarRank`, modelling `sort_by_key(|(_, sr, _)| *sr)`. -/
def sortByStar : List SUnit → List SUnit
  | [] => []
  | x :: xs => insertByStar x (sortByStar xs)

/-- The `same_type_units` list of `summon_unit`: every existing unit of the
event's type — there is no team filter in the query — sorted by star rank. -/
def sameTypeSorted (units : List SUnit) (t : TileType) : List SUnit :=
  sortByStar (units.filter fun u => decide (u.unit_type = t))

/-- The cells scanned by `BattleGrid::find_empty_position`, in scan order:
`q` from `-3` to `3` (outer), `r` from `-2` to `0` (inner). -/
def spawnCells : List HexPosition :=
  (List.range 7).flatMap fun qi =>
    (List.range 3).map fun ri => ⟨(qi : ℤ) - 3, (ri : ℤ) - 2⟩

/-- Rust `BattleGrid::find_empty_position` (hex_grid.rs lines 109-119). -/
def find_empty_position (g : Grid) : Option HexPosition :=
  spawnCells.find? fun p => is_valid_position p && !(goccupied g p)

/-- Rust `BattleGrid::place_unit` (hex_grid.rs lines 85-92). -/
def place_unit (g : Grid) (p : HexPosition) (entity : ℕ) : Grid :=
  if is_valid_position p = true ∧ goccupied g p = false then (p, entity) :: g
  else g

/-- Rust `spawn_unit_at` (events.rs lines 109-142): spawn a fresh entity with the
given components and place it on the grid. -/
def spawn_unit_at (units : List SUnit) (g : Grid) (t : TileType)
    (star : ℕ) (p : HexPosition) (team : Team) (newId : ℕ) :
    List SUnit × Grid :=
  (units ++ [⟨newId, t, star, p, team⟩], place_unit g p newId)

/-- The fall-through branch of `summon_unit` (events.rs lines 104-107):
spawn a new Player unit of the event's rank at the first free cell, if any. -/
def summon_spawn_new (units : List SUnit) (g : Grid) (t : TileType)
    (rank newId : ℕ) : List SUnit × Grid :=
  match find_empty_position g with
  | some p => spawn_unit_at units g t rank p Team.Player newId
  | none => (units, g)

/-- Rust `summon_unit` (events.rs lines 71-107): if the two lowest-rank units of
the event's type share a rank below 3, despawn both and spawn one Player
unit of rank+1 at a free cell; otherwise spawn a new Player unit of the
event's rank. -/
def summon_unit (units : List SUnit) (g : Grid) (ev_type : TileType)
    (ev_rank newId : ℕ) : List SUnit × Grid :=
  match sameTypeSorted units ev_type with
  | u1 :: u2 :: _ =>
    if u1.star = u2.star ∧ u1.star < 3 then
      let g1 := gerase (gerase g u1.pos) u2.pos
      let units1 := units.filter fun u =>
        decide (u.id ≠ u1.id) && decide (u.id ≠ u2.id)
      match find_empty_position g1 with
      | some p => spawn_unit_at units1 g1 ev_type (u1.star + 1) p Team.Player newId
      | none => (units1, g1)
    else summon_spawn_new units g ev_type ev_rank newId
  | _ => summon_spawn_new units g ev_type ev_rank newId

/-- A Player Red 1★ unit at the origin. -/
def sumPlayer : SUnit := ⟨1, TileType.Red, 1, ⟨0, 0⟩, Team.Player⟩

/-- An Enemy Red 1★ unit one cell away. -/
def sumEnemy : SUnit := ⟨2, TileType.Red, 1, ⟨0, 1⟩, Team.Enemy⟩

/-- A battlefield with one Player and one Enemy Red unit. -/
def demoSummonUnits : List SUnit := [sumPlayer, sumEnemy]

/-- The grid occupancy matching `demoSummonUnits`. -/
def demoSummonGrid : Grid := [(⟨0, 0⟩, 1), (⟨0, 1⟩, 2)]

/-- Two Player Red 3★ units (merge blocked at max rank). -/
def demoMaxUnits : List SUnit :=
  [⟨1, TileType.Red, 3, ⟨0, 0⟩, Team.Player⟩,
   ⟨2, TileType.Red, 3, ⟨0, 1⟩, Team.Player⟩]

/-- The grid occupancy matching `demoMaxUnits`. -/
def demoMaxGrid : Grid := [(⟨0, 0⟩, 1), (⟨0, 1⟩, 2)]

-- ============================================================
-- Synergies (synergy.rs)
-- ============================================================

/-- Rust `SynergyLevel` (synergy.rs lines 6-12). -/
inductive SynergyLevel where
  | None | Bronze | Silver | Gold
deriving DecidableEq, Repr

namespace SynergyLevel

/-- Rust `SynergyLevel::from_count` (ranges `0..=1`, `2..=3`, `4..=5`, `_`). -/
def from_count (count : ℕ) : SynergyLevel :=
  if count ≤ 1 then .None
  else if count ≤ 3 then .Bronze
  else if count ≤ 5 then .Silver
  else .Gold

/-- Rust `SynergyLevel::bonus_multiplier` (1.0 / 1.15 / 1.30 / 1.50). -/
def bonus_multiplier : SynergyLevel → ℚ
  | .None => 1
  | .Bronze => 23/20
  | .Silver => 13/10
  | .Gold => 3/2

end SynergyLevel

/-- The components `apply_synergy_bonuses` queries for one unit. -/
structure BUnit where
  unit_type : TileType
  team : Team
  stats : UnitStats
deriving DecidableEq, Repr

/-- Count of live `Team::Player` units of a tile type (`update_synergies`,
synergy.rs lines 49-55). -/
def countPlayerType (units : List BUnit) (t : TileType) : ℕ :=
  (units.filter fun u => decide (u.team = Team.Player) && decide (u.unit_type = t)).length

/-- The per-type stat mutation of `apply_synergy_bonuses` (synergy.rs lines
80-135), applied to live stats in place. -/
def applySynergyStats (level : SynergyLevel) (t : TileType) (s : UnitStats) : UnitStats :=
  let multiplier := level.bonus_multiplier
  match t with
  | .Red =>
    let attack_bonus := 1 + (1/5) * (multiplier - 1) / (3/20)
    let health_bonus := 1 + (1/10) * (multiplier - 1) / (3/20)
    { s with attack := s.attack * attack_bonus
             health := s.health * health_bonus
             max_health := s.max_health * health_bonus }
  | .Blue =>
    let health_bonus := 1 + (3/10) * (multiplier - 1) / (3/20)
    let defense_bonus := (3/20) * (multiplier - 1) / (3/20)
    { s with health := s.health * health_bonus
             max_health := s.max_health * health_bonus
             defense := s.defense + defense_bonus * 10 }
  | .Green =>
    let range_bonus : ℤ :=
      match level with | .Bronze => 1 | .Silver => 2 | .Gold => 3 | _ => 0
    let speed_bonus := 1 + (3/20) * (multiplier - 1) / (3/20)
    { s with attack_range := s.attack_range + range_bonus
             attack_speed := s.attack_speed * speed_bonus }
  | .Yellow =>
    let attack_bonus := 1 + (3/10) * (multiplier - 1) / (3/20)
    let crit_bonus : ℚ :=
      match level with | .Bronze => 1/10 | .Silver => 1/5 | .Gold => 3/10 | _ => 0
    { s with attack := s.attack * attack_bonus
             crit_chance := s.crit_chance + crit_bonus }
  | .Purple =>
    let ap_bonus := 1 + (1/4) * (multiplier - 1) / (3/20)
    let mana_regen_bonus : ℚ :=
      match level with | .Bronze => 6/5 | .Silver => 7/5 | .Gold => 8/5 | _ => 1
    { s with ability_power := s.ability_power * ap_bonus
             mana_regen := s.mana_regen * mana_regen_bonus }

/-- One tick of the chained `update_synergies` + `apply_synergy_bonuses`
pair: levels are recomputed from current player-unit counts, then every
Player unit's live stats are mutated by the per-type bonuses. -/
def synergyTick (units : List BUnit) : List BUnit :=
  units.map fun u =>
    if u.team = Team.Player then
      let level := SynergyLevel.from_count (countPlayerType units u.unit_type)
      if level = SynergyLevel.None then u
      else { u with stats := applySynergyStats level u.unit_type u.stats }
    else u

/-- Base stats of a Red (Warrior) unit at star rank 1
(`UnitStats::for_type`, unit.rs lines 56-63). -/
def redWarriorStats : UnitStats :=
  { health := 80, max_health := 80, attack := 15, attack_speed := 6/5
    attack_range := 1, mana := 0, max_mana := 100, move_speed := 1
    defense := 0, crit_chance := 0, ability_power := 0, mana_regen := 1 }

/-- A fixed pair of live Player Red units (Bronze synergy). -/
def demoSynergyUnits : List BUnit :=
  [⟨TileType.Red, Team.Player, redWarriorStats⟩,
   ⟨TileType.Red, Team.Player, redWarriorStats⟩]

/-- The Red warrior stats after one synergy tick at Bronze
(attack ×6/5, health ×11/10). -/
def redWarriorTicked1 : UnitStats :=
  { health := 88, max_health := 88, attack := 18, attack_speed := 6/5
    attack_range := 1, mana := 0, max_mana := 100, move_speed := 1
    defense := 0, crit_chance := 0, ability_power := 0, mana_regen := 1 }

/-- The Red warrior stats after two synergy ticks at Bronze. -/
def redWarriorTicked2 : UnitStats :=
  { health := 484/5, max_health := 484/5, attack := 108/5, attack_speed := 6/5
    attack_range := 1, mana := 0, max_mana := 100, move_speed := 1
    defense := 0, crit_chance := 0, ability_power := 0, mana_regen := 1 }

-- ============================================================
-- GameResult evaluator (game_result.rs)
-- ============================================================

/-- Rust `GameResult` resource (game_result.rs lines 16-35). -/
structure GameResult where
  game_ended : Bool
  victory : Bool
  waves_completed : ℕ
  player_had_units : Bool
  defenseless_timer : ℚ
deriving DecidableEq, Repr

/-- Rust `Default for GameResult`. -/
def gameResultDefault : GameResult :=
  { game_ended := false, victory := false, waves_completed := 0
    player_had_units := false, defenseless_timer := 0 }

/-- Number of live `Team::Player` units; a unit is its team and its
`HexPosition` `r` coordinate. -/
def playerCount (units : List (Team × ℤ)) : ℕ :=
  (units.filter fun u => decide (u.1 = Team.Player)).length

/-- Number of live `Team::Enemy` units. -/
def enemyCount (units : List (Team × ℤ)) : ℕ :=
  (units.filter fun u => decide (u.1 = Team.Enemy)).length

/-- Whether some enemy has `pos.r <= -2` (game_result.rs lines 58-63). -/
def enemyReachedBase (units : List (Team × ℤ)) : Bool :=
  units.any fun u => decide (u.1 = Team.Enemy) && decide (u.2 ≤ -2)

/-- Rust `check_game_result` (game_result.rs lines 39-109), restricted to its
effect on the `GameResult` resource.  `units` carries team and `r`
coordinate; `delta` is the frame delta.  The `||` short-circuit in
`should_lose` only advances `defenseless_timer` when the first two disjuncts
are false, which the nested ifs reproduce. -/
def check_game_result (gr : GameResult) (units : List (Team × ℤ))
    (wm : WaveManager) (delta : ℚ) : GameResult :=
  if gr.game_ended = true then gr
  else
    let pc := playerCount units
    let ec := enemyCount units
    let gr1 := if 0 < pc then
        { gr with player_had_units := true, defenseless_timer := 0 } else gr
    let gr2 := if wm.wave_active = true ∧ ec = 0 ∧ wm.enemies_remaining = 0 then
        { gr1 with waves_completed := wm.current_wave } else gr1
    let step3 : Bool × GameResult :=
      if gr2.player_had_units = true ∧ pc = 0 ∧ 0 < wm.current_wave then (true, gr2)
      else if enemyReachedBase units = true then (true, gr2)
      else if pc = 0 ∧ 0 < ec then
        let t := gr2.defenseless_timer + delta
        (decide (5 ≤ t), { gr2 with defenseless_timer := t })
      else (false, gr2)
    let gr4 := if step3.1 = true then
        { step3.2 with game_ended := true, victory := false } else step3.2
    if 10 ≤ wm.current_wave ∧ ec = 0 ∧ wm.wave_active = false then
      { gr4 with game_ended := true, victory := true
                 waves_completed := wm.current_wave }
    else gr4

end PT

-- ============================================================
-- Theorems
-- ============================================================

namespace PT

/-- C1 counterexample: at defense 50, `take_damage 10` removes only
`max (10 - 50) 1 = 1` health (100 → 99), while the claimed percentage formula
`max (10 * (1 - min (50/100) 0.8)) 1 = 5` would leave 95.  The claim is false
for `take_damage`; the percentage formula is `take_calculated_damage`. -/
theorem C1_take_damage_not_percentage :
    (sampleDefender.take_damage 10).health = 99 ∧
    specPercentDamageHealth sampleDefender.health sampleDefender.defense 10 = 95 ∧
    (sampleDefender.take_damage 10).health ≠
      specPercentDamageHealth sampleDefender.health sampleDefender.defense 10 := by
  have h1 : (sampleDefender.take_damage 10).health = 99 := by
    simp only [UnitStats.take_damage, sampleDefender]
    norm_num [max_def]
  have h2 : specPercentDamageHealth sampleDefender.health sampleDefender.defense 10 = 95 := by
    simp only [specPercentDamageHealth, sampleDefender]
    norm_num [max_def, min_def]
  refine ⟨h1, h2, ?_⟩
  rw [h1, h2]
  norm_num

/-- C1 amended: `take_damage` subtracts the flat-defense, floor-clamped amount
`max (amount − defense) 1` (health clamped to ≥ 0); the percentage-based
formula `max (amount × (1 − min (defense/100, 0.8)), 1)` claimed by the spec
is implemented by `take_calculated_damage`, not by `take_damage`. -/
theorem C1_damage_formulas (s : UnitStats) (amount : ℚ) :
    (s.take_damage amount).health = specFlatDamageHealth s.health s.defense amount ∧
    (s.take_calculated_damage amount).health =
      specPercentDamageHealth s.health s.defense amount := by
  constructor <;> rfl

/-- C4: `DamageCalculator::calculate b c d` equals
`max (b × (1.5 if c else 1) × (1 − min (d/100) 0.8)) 1`, and in particular
`calculate 100 true 20 = 120` and `calculate 1 false 100 = 1`. -/
theorem C4_damage_calculator (b : ℚ) (c : Bool) (d : ℚ) :
    DamageCalculator.calculate b c d =
      max (b * (if c then (3/2 : ℚ) else 1) * (1 - min (d / 100) (4/5))) 1 ∧
    DamageCalculator.calculate 100 true 20 = 120 ∧
    DamageCalculator.calculate 1 false 100 = 1 := by
  refine ⟨?_, ?_, ?_⟩
  · cases c <;>
      simp [DamageCalculator.calculate, DamageCalculator.apply_crit,
        DamageCalculator.apply_defense, DamageCalculator.CRIT_MULTIPLIER,
        DamageCalculator.MAX_DEFENSE_REDUCTION, DamageCalculator.MIN_DAMAGE]
  · simp only [DamageCalculator.calculate, DamageCalculator.apply_crit,
      DamageCalculator.apply_defense, DamageCalculator.CRIT_MULTIPLIER,
      DamageCalculator.MAX_DEFENSE_REDUCTION, DamageCalculator.MIN_DAMAGE]
    norm_num [max_def, min_def]
  · simp only [DamageCalculator.calculate, DamageCalculator.apply_crit,
      DamageCalculator.apply_defense, DamageCalculator.CRIT_MULTIPLIER,
      DamageCalculator.MAX_DEFENSE_REDUCTION, DamageCalculator.MIN_DAMAGE]
    norm_num [max_def, min_def]

/-- C8 counterexample: `enemies_for_wave` computes `(3 + wave * 2).min(12)`
in `u32` arithmetic, so at `wave = 2^31` the product wraps to 0 and the
result is 3, not `min (3 + 2·2^31) 12 = 12` as the claim's formula demands. -/
theorem C8_enemies_for_wave_overflow :
    WaveManager.enemies_for_wave (2 ^ 31) = 3 ∧
    min (3 + 2 * 2 ^ 31) 12 = 12 ∧ (3 : ℕ) ≠ 12 := by
  refine ⟨?_, by norm_num, by norm_num⟩
  norm_num [WaveManager.enemies_for_wave]

/-- C8 amended: for every wave number `w` small enough that `3 + 2w` does not
overflow `u32` (`w ≤ 2^31 − 2`), `enemies_for_wave w = min (3 + 2w) 12` — in
particular `enemies_for_wave 0 = 3` and `enemies_for_wave 5 = 12` — and
`start_wave w` sets `enemies_remaining` to exactly this value while also
setting `current_wave = w`, `wave_active = true` and `spawn_delay = 0.5`;
for larger `w` the `u32` arithmetic wraps modulo `2^32`. -/
theorem C8_start_wave (wm : WaveManager) (w : ℕ) (hw : w ≤ 2 ^ 31 - 2) :
    WaveManager.enemies_for_wave w = min (3 + 2 * w) 12 ∧
    WaveManager.enemies_for_wave 0 = 3 ∧
    WaveManager.enemies_for_wave 5 = 12 ∧
    (wm.start_wave w).current_wave = w ∧
    (wm.start_wave w).wave_active = true ∧
    (wm.start_wave w).spawn_delay = 1/2 ∧
    (wm.start_wave w).enemies_remaining = min (3 + 2 * w) 12 := by
  have hmul : w * 2 < 2 ^ 32 := by omega
  have hadd : 3 + w * 2 < 2 ^ 32 := by omega
  have hform : WaveManager.enemies_for_wave w = min (3 + 2 * w) 12 := by
    unfold WaveManager.enemies_for_wave
    rw [Nat.mod_eq_of_lt hmul, Nat.mod_eq_of_lt hadd]
    omega
  refine ⟨hform, by decide, by decide, rfl, rfl, rfl, ?_⟩
  simpa [WaveManager.start_wave] using hform

/-- C8 witness: the amended statement instantiated at the default wave
manager and `w = 5`. -/
theorem C8_start_wave_witness :
    WaveManager.enemies_for_wave 5 = min (3 + 2 * 5) 12 ∧
    (waveManagerDefault.start_wave 5).enemies_remaining = min (3 + 2 * 5) 12 ∧
    (waveManagerDefault.start_wave 5).wave_active = true := by
  have h := C8_start_wave waveManagerDefault 5 (by norm_num)
  exact ⟨h.1, h.2.2.2.2.2.2, h.2.2.2.2.1⟩

/-- C10: after the final loop of `attack_system` — which decrements every
queried unit's cooldown by the frame delta and resets any cooldown that is
`≤ 0` to `1/attack_speed`, target or no target — every unit with
`attack_speed > 0` has a strictly positive `AttackCooldown`; and the damage
phase (`take_damage`) never changes `attack_speed`, so the speeds seen by the
loop are those the units entered the system with. -/
theorem C10_cooldown_positive :
    (∀ (units : List CUnit) (delta : ℚ), (∀ u ∈ units, 0 < u.speed) →
      ∀ u ∈ cooldownPass units delta, 0 < u.cooldown) ∧
    (∀ (s : UnitStats) (a : ℚ), (s.take_damage a).attack_speed = s.attack_speed) := by
  constructor
  · intro units delta hspeed u hu
    rcases List.mem_map.mp hu with ⟨v, hv, rfl⟩
    have hs : 0 < v.speed := hspeed v hv
    show 0 < tickCooldown v.cooldown v.speed delta
    by_cases hc : v.cooldown - delta ≤ 0
    · simpa [tickCooldown, hc] using one_div_pos.mpr hs
    · simpa [tickCooldown, hc] using not_le.mp hc
  · intro s a
    rfl

/-- C10 witness: a unit with no target and an expired cooldown (0) at attack
speed 1 ends the pass with cooldown `1/1 > 0`. -/
theorem C10_cooldown_positive_witness :
    0 < (CUnit.mk (tickCooldown 0 1 (1/2)) 1 none).cooldown := by
  have h := C10_cooldown_positive.1 [CUnit.mk 0 1 none] (1/2) (by decide)
  exact h _ (by simp [cooldownPass])

-- Association-list lemmas for the grid (shared helpers).

/-- After erasing a key, looking it up gives nothing. -/
theorem glookup_gerase_self (g : Grid) (a : HexPosition) :
    glookup (gerase g a) a = none := by
  induction g with
  | nil => rfl
  | cons e es ih =>
    by_cases h : e.1 = a
    · simpa [gerase, h] using ih
    · simpa [gerase, glookup, h] using ih

/-- Erasing one key leaves lookups at other keys unchanged. -/
theorem glookup_gerase_ne (g : Grid) {a p : HexPosition} (h : p ≠ a) :
    glookup (gerase g a) p = glookup g p := by
  induction g with
  | nil => rfl
  | cons e es ih =>
    by_cases h1 : e.1 = a
    · have h2 : e.1 ≠ p := by rw [h1]; exact fun hc => h hc.symm
      simp only [gerase, if_pos h1]
      rw [ih]
      simp only [glookup]
      rw [if_neg h2]
    · simp only [gerase, if_neg h1, glookup]
      by_cases h2 : e.1 = p
      · rw [if_pos h2, if_pos h2]
      · rw [if_neg h2, if_neg h2]
        exact ih

/-- Erasing an absent key is the identity. -/
theorem gerase_eq_self (g : Grid) (a : HexPosition)
    (h : ∀ e ∈ g, e.1 ≠ a) : gerase g a = g := by
  induction g with
  | nil => rfl
  | cons e es ih =>
    have he : e.1 ≠ a := h e (List.mem_cons_self e es)
    have ih2 := ih fun x hx => h x (List.mem_cons_of_mem e hx)
    simp [gerase, he, ih2]

/-- With distinct keys, erasing a present key removes exactly one entry. -/
theorem gerase_length (g : Grid) (a : HexPosition) (entity : ℕ)
    (hnd : keysNodup g) (h : glookup g a = some entity) :
    (gerase g a).length + 1 = g.length := by
  induction g with
  | nil => simp [glookup] at h
  | cons e es ih =>
    have hnd2 : (e.1 ∉ es.map Prod.fst) ∧ keysNodup es := by
      simpa [keysNodup] using hnd
    by_cases h1 : e.1 = a
    · have habs : ∀ x ∈ es, x.1 ≠ a := by
        intro x hx hc
        apply hnd2.1
        rw [h1, ← hc]
        exact List.mem_map_of_mem Prod.fst hx
      simp only [gerase, if_pos h1]
      rw [gerase_eq_self es a habs]
      simp
    · have h2 : glookup es a = some entity := by
        simpa [glookup, h1] using h
      have hlen := ih hnd2.2 h2
      simp only [gerase, if_neg h1, List.length_cons]
      omega

/-- C2 / code bug: with a fixed pair of Player Red units (counts unchanged),
running the synergy update-and-apply step twice does not equal running it
once — `apply_synergy_bonuses` multiplies the live stats every tick
(attack 15 → 18 → 21.6), so bonuses compound across ticks, contradicting the
stated design that bonuses are reapplied from base without accumulation. -/
theorem C2_synergy_compounds :
    (synergyTick demoSynergyUnits).map (fun u => u.stats.attack) = [18, 18] ∧
    (synergyTick (synergyTick demoSynergyUnits)).map (fun u => u.stats.attack) =
      [108/5, 108/5] ∧
    synergyTick (synergyTick demoSynergyUnits) ≠ synergyTick demoSynergyUnits := by
  have hstep1 : synergyTick demoSynergyUnits =
      [⟨TileType.Red, Team.Player, redWarriorTicked1⟩,
       ⟨TileType.Red, Team.Player, redWarriorTicked1⟩] := by
    norm_num [synergyTick, demoSynergyUnits, countPlayerType,
      SynergyLevel.from_count, applySynergyStats, SynergyLevel.bonus_multiplier,
      redWarriorStats, redWarriorTicked1]
    decide
  have hstep2 : synergyTick
      [(⟨TileType.Red, Team.Player, redWarriorTicked1⟩ : BUnit),
       ⟨TileType.Red, Team.Player, redWarriorTicked1⟩] =
      [⟨TileType.Red, Team.Player, redWarriorTicked2⟩,
       ⟨TileType.Red, Team.Player, redWarriorTicked2⟩] := by
    norm_num [synergyTick, countPlayerType, SynergyLevel.from_count,
      applySynergyStats, SynergyLevel.bonus_multiplier, redWarriorTicked1,
      redWarriorTicked2]
    decide
  have h1 : (synergyTick demoSynergyUnits).map (fun u => u.stats.attack) = [18, 18] := by
    rw [hstep1]
    norm_num [redWarriorTicked1]
  have h2 : (synergyTick (synergyTick demoSynergyUnits)).map
      (fun u => u.stats.attack) = [108/5, 108/5] := by
    rw [hstep1, hstep2]
    norm_num [redWarriorTicked2]
  refine ⟨h1, h2, fun hc => ?_⟩
  have hbad : ([108/5, 108/5] : List ℚ) = [18, 18] := by
    rw [← h1, ← h2, hc]
  have : (108 : ℚ)/5 = 18 := by injection hbad
  norm_num at this

-- Helpers about the spawn branch of summon handling.

/-- The fall-through spawn branch never removes an existing unit. -/
theorem summon_spawn_new_keeps (units : List SUnit) (g : Grid) (t : TileType)
    (rank newId : ℕ) :
    ∀ u ∈ units, u ∈ (summon_spawn_new units g t rank newId).1 := by
  intro u hu
  unfold summon_spawn_new
  cases find_empty_position g with
  | none => exact hu
  | some p => exact List.mem_append_left _ hu

/-- When a free cell exists, the spawn branch adds the new Player unit of the
event's rank there. -/
theorem summon_spawn_new_adds (units : List SUnit) (g : Grid) (t : TileType)
    (rank newId : ℕ) (p : HexPosition) (h : find_empty_position g = some p) :
    (⟨newId, t, rank, p, Team.Player⟩ : SUnit) ∈
      (summon_spawn_new units g t rank newId).1 := by
  unfold summon_spawn_new
  rw [h]
  exact List.mem_append_right _ (List.mem_singleton.mpr rfl)

/-- C3 counterexample: with one Player and one Enemy Red 1★ unit on the
board, handling a Red summon event merges them — the Enemy unit is removed —
because the `summon_unit` query has no team filter, contradicting the claim
that Enemy units are never considered or removed. -/
theorem C3_enemy_merged_counterexample :
    sumEnemy ∈ demoSummonUnits ∧ sumEnemy.team = Team.Enemy ∧
    sumEnemy ∉ (summon_unit demoSummonUnits demoSummonGrid TileType.Red 1 99).1 := by
  refine ⟨by decide, rfl, by decide⟩

/-- C3 amended: `summon_unit` considers ALL existing units of the event's
type regardless of team, sorted stably by star rank.  When the two
lowest-ranked share a rank below 3, exactly those two units (which may be
Enemy units) are removed, and the handling spawns one Player unit of the
shared rank + 1 with the fresh entity id at the first free cell of the
post-removal grid — only if such a cell exists, else nothing is added.
Otherwise no existing unit is removed and a new Player unit of the event's
`star_rank` is spawned at the first free cell of the grid, if any, else the
unit list is unchanged. -/
theorem C3_merge_ignores_team (units : List SUnit) (g : Grid) (t : TileType)
    (rank newId : ℕ) (hfresh : ∀ u ∈ units, u.id ≠ newId) :
    (∀ u1 u2 rest, sameTypeSorted units t = u1 :: u2 :: rest →
      u1.star = u2.star → u1.star < 3 →
      (∀ u ∈ units,
        (u ∈ (summon_unit units g t rank newId).1 ↔
          (u.id ≠ u1.id ∧ u.id ≠ u2.id))) ∧
      (∀ v ∈ (summon_unit units g t rank newId).1, v ∉ units →
        v.id = newId ∧ v.team = Team.Player ∧ v.unit_type = t ∧
          v.star = u1.star + 1) ∧
      (∀ p, find_empty_position (gerase (gerase g u1.pos) u2.pos) = some p →
        (⟨newId, t, u1.star + 1, p, Team.Player⟩ : SUnit) ∈
          (summon_unit units g t rank newId).1) ∧
      (find_empty_position (gerase (gerase g u1.pos) u2.pos) = none →
        ∀ v ∈ (summon_unit units g t rank newId).1, v ∈ units)) ∧
    ((∀ u1 u2 rest, sameTypeSorted units t = u1 :: u2 :: rest →
        ¬(u1.star = u2.star ∧ u1.star < 3)) →
      (∀ u ∈ units, u ∈ (summon_unit units g t rank newId).1) ∧
      (∀ p, find_empty_position g = some p →
        (⟨newId, t, rank, p, Team.Player⟩ : SUnit) ∈
          (summon_unit units g t rank newId).1) ∧
      (find_empty_position g = none →
        (summon_unit units g t rank newId).1 = units)) := by
  constructor
  · intro u1 u2 rest hsort hstar hlt
    have hres : (summon_unit units g t rank newId).1 =
        (units.filter fun u => decide (u.id ≠ u1.id) && decide (u.id ≠ u2.id)) ++
          (match find_empty_position (gerase (gerase g u1.pos) u2.pos) with
            | some p => [(⟨newId, t, u1.star + 1, p, Team.Player⟩ : SUnit)]
            | none => []) := by
      simp only [summon_unit, hsort]
      rw [if_pos ⟨hstar, hlt⟩]
      cases find_empty_position (gerase (gerase g u1.pos) u2.pos) with
      | none => simp
      | some p => simp [spawn_unit_at]
    refine ⟨?_, ?_, ?_, ?_⟩
    · intro u hu
      rw [hres]
      constructor
      · intro hmem
        rcases List.mem_append.mp hmem with hm | hm
        · have := List.mem_filter.mp hm
          simpa using this.2
        · exfalso
          cases hfind : find_empty_position (gerase (gerase g u1.pos) u2.pos) with
          | none => rw [hfind] at hm; simp at hm
          | some p =>
            rw [hfind] at hm
            have : u = ⟨newId, t, u1.star + 1, p, Team.Player⟩ := by simpa using hm
            exact hfresh u hu (by rw [this])
      · intro hpred
        exact List.mem_append_left _
          (List.mem_filter.mpr ⟨hu, by simp [hpred.1, hpred.2]⟩)
    · intro v hv hnot
      rw [hres] at hv
      rcases List.mem_append.mp hv with hm | hm
      · exact absurd (List.mem_filter.mp hm).1 hnot
      · cases hfind : find_empty_position (gerase (gerase g u1.pos) u2.pos) with
        | none => rw [hfind] at hm; simp at hm
        | some p =>
          rw [hfind] at hm
          have : v = ⟨newId, t, u1.star + 1, p, Team.Player⟩ := by simpa using hm
          rw [this]
          exact ⟨rfl, rfl, rfl, rfl⟩
    · intro p hp
      rw [hres, hp]
      exact List.mem_append_right _ (List.mem_singleton.mpr rfl)
    · intro hp v hv
      rw [hres, hp] at hv
      have h2 : v ∈ units ∧ ¬v.id = u1.id ∧ ¬v.id = u2.id := by simpa using hv
      exact h2.1
  · intro hno
    have hred : summon_unit units g t rank newId =
        summon_spawn_new units g t rank newId := by
      cases hs : sameTypeSorted units t with
      | nil => simp only [summon_unit, hs]
      | cons a tail =>
        cases tail with
        | nil => simp only [summon_unit, hs]
        | cons b tail2 =>
          simp only [summon_unit, hs]
          rw [if_neg (hno a b tail2 hs)]
    rw [hred]
    refine ⟨fun u hu => summon_spawn_new_keeps units g t rank newId u hu,
      fun p hp => summon_spawn_new_adds units g t rank newId p hp, fun hp => ?_⟩
    unfold summon_spawn_new
    rw [hp]

/-- C3 witness: in the concrete merge the Player Red 1★ unit is removed
(together with the Enemy one), and the 2★ upgrade appears at the first free
cell `(-3, -2)` of the post-removal grid. -/
theorem C3_merge_ignores_team_witness :
    sumPlayer ∉ (summon_unit demoSummonUnits demoSummonGrid TileType.Red 1 99).1 ∧
    (⟨99, TileType.Red, 2, ⟨-3, -2⟩, Team.Player⟩ : SUnit) ∈
      (summon_unit demoSummonUnits demoSummonGrid TileType.Red 1 99).1 := by
  have h := (C3_merge_ignores_team demoSummonUnits demoSummonGrid TileType.Red 1 99
    (by decide)).1 sumPlayer sumEnemy [] (by decide) rfl (by decide)
  constructor
  · intro hmem
    exact ((h.1 sumPlayer (by decide)).mp hmem).1 rfl
  · exact h.2.2.1 ⟨-3, -2⟩ (by decide)

/-- C9: summon handling merges only when the two lowest-rank same-type units
share a star rank strictly below 3; in particular when both are rank 3 no
existing unit is removed and a new Player unit of the event's `star_rank` is
spawned at the first free cell instead. -/
theorem C9_no_merge_at_max_rank (units : List SUnit) (g : Grid) (t : TileType)
    (rank newId : ℕ) :
    ((∀ u1 u2 rest, sameTypeSorted units t = u1 :: u2 :: rest →
        ¬(u1.star = u2.star ∧ u1.star < 3)) →
      ∀ u ∈ units, u ∈ (summon_unit units g t rank newId).1) ∧
    (∀ u1 u2 rest, sameTypeSorted units t = u1 :: u2 :: rest →
      u1.star = 3 → u2.star = 3 →
      (∀ u ∈ units, u ∈ (summon_unit units g t rank newId).1) ∧
      (∀ p, find_empty_position g = some p →
        (⟨newId, t, rank, p, Team.Player⟩ : SUnit) ∈
          (summon_unit units g t rank newId).1)) := by
  constructor
  · intro hno u hu
    cases hs : sameTypeSorted units t with
    | nil =>
      simp only [summon_unit, hs]
      exact summon_spawn_new_keeps units g t rank newId u hu
    | cons a tail =>
      cases tail with
      | nil =>
        simp only [summon_unit, hs]
        exact summon_spawn_new_keeps units g t rank newId u hu
      | cons b tail2 =>
        simp only [summon_unit, hs]
        rw [if_neg (hno a b tail2 hs)]
        exact summon_spawn_new_keeps units g t rank newId u hu
  · intro u1 u2 rest hs h1 h2
    have hcond : ¬(u1.star = u2.star ∧ u1.star < 3) := by
      rintro ⟨_, hlt⟩
      rw [h1] at hlt
      exact absurd hlt (by norm_num)
    constructor
    · intro u hu
      simp only [summon_unit, hs]
      rw [if_neg hcond]
      exact summon_spawn_new_keeps units g t rank newId u hu
    · intro p hp
      simp only [summon_unit, hs]
      rw [if_neg hcond]
      exact summon_spawn_new_adds units g t rank newId p hp

/-- C9 witness: with two Player Red 3★ units, summon handling keeps both and
spawns a fresh 1★ unit at the first free cell `(-3, -2)`. -/
theorem C9_no_merge_at_max_rank_witness :
    (⟨1, TileType.Red, 3, ⟨0, 0⟩, Team.Player⟩ : SUnit) ∈
      (summon_unit demoMaxUnits demoMaxGrid TileType.Red 1 99).1 ∧
    (⟨99, TileType.Red, 1, ⟨-3, -2⟩, Team.Player⟩ : SUnit) ∈
      (summon_unit demoMaxUnits demoMaxGrid TileType.Red 1 99).1 := by
  have h := (C9_no_merge_at_max_rank demoMaxUnits demoMaxGrid TileType.Red 1 99).2
    ⟨1, TileType.Red, 3, ⟨0, 0⟩, Team.Player⟩
    ⟨2, TileType.Red, 3, ⟨0, 1⟩, Team.Player⟩ [] (by decide) rfl rfl
  exact ⟨h.1 _ (by decide), h.2 ⟨-3, -2⟩ (by decide)⟩

/-- Soundness of the closest-target scan: any selected candidate was scanned,
carries no `StealthBuff` component, is on the opposing team and is not the
seeker itself (or was already selected before the scan began). -/
theorem selectTargetFold_sound (u : TUnit) :
    ∀ (l : List TUnit) (init : Option (TUnit × ℕ)) (v : TUnit) (d : ℕ),
      l.foldl (selectTargetFold u) init = some (v, d) →
      init = some (v, d) ∨
        (v ∈ l ∧ v.stealth = none ∧ v.team ≠ u.team ∧ v.id ≠ u.id) := by
  intro l
  induction l with
  | nil =>
    intro init v d h
    exact Or.inl h
  | cons x xs ih =>
    intro init v d h
    rcases ih (selectTargetFold u init x) v d h with h1 | h1
    · by_cases hskip : u.id = x.id ∨ u.team = x.team ∨ x.stealth.isSome
      · rw [selectTargetFold, if_pos hskip] at h1
        exact Or.inl h1
      · push_neg at hskip
        have hgood : x.stealth = none ∧ x.team ≠ u.team ∧ x.id ≠ u.id := by
          refine ⟨Option.not_isSome_iff_eq_none.mp ?_, ?_, ?_⟩
          · simpa using hskip.2.2
          · exact fun hc => hskip.2.1 hc.symm
          · exact fun hc => hskip.1 hc.symm
        rw [selectTargetFold,
          if_neg (by push_neg; exact ⟨hskip.1, hskip.2.1, by simpa using hskip.2.2⟩)] at h1
        cases init with
        | none =>
          have hv : x = v := by
            simpa using congrArg (fun o => Option.map Prod.fst o) h1
          subst hv
          exact Or.inr ⟨List.mem_cons_self x xs, hgood⟩
        | some p =>
          by_cases hd : hexDistance u.pos x.pos < p.2
          · simp only [hd, if_true] at h1
            have hv : x = v := by
              simpa using congrArg (fun o => Option.map Prod.fst o) h1
            subst hv
            exact Or.inr ⟨List.mem_cons_self x xs, hgood⟩
          · simp only [hd, if_false] at h1
            exact Or.inl h1
    · exact Or.inr ⟨List.mem_cons_of_mem x h1.1, h1.2⟩

/-- C5 counterexample: a unit whose `StealthBuff` has `remaining = 0` but is
still attached is NOT selected in the targeting pass (the system tests only
component presence), although it would be the chosen target with the buff
removed — so the unit is not targetable "the instant remaining reaches 0". -/
theorem C5_stealth_zero_still_untargetable :
    tgtStealthZero.stealth = some 0 ∧
    targeting_select [tgtSeeker, tgtStealthZero] tgtSeeker = none ∧
    targeting_select [tgtSeeker, tgtNoStealth] tgtSeeker = some tgtNoStealth := by
  refine ⟨rfl, by decide, by decide⟩

/-- C5 amended: in every run of the targeting pass, any unit carrying a
`StealthBuff` component — whatever its `remaining`, including 0 — is never
selected as a target: every selected target carries no stealth component, is
on the opposing team, and is not the seeker.  (The component is removed by
`buff_timer_system` once `remaining` reaches 0, after which the unit is
targetable on later passes.) -/
theorem C5_targeting_skips_stealth (units : List TUnit) (u v : TUnit)
    (h : targeting_select units u = some v) :
    v ∈ units ∧ v.stealth = none ∧ v.team ≠ u.team ∧ v.id ≠ u.id := by
  unfold targeting_select at h
  cases hfold : units.foldl (selectTargetFold u) none with
  | none => rw [hfold] at h; exact absurd h (by simp)
  | some p =>
    rw [hfold] at h
    have hp : p.1 = v := by simpa using h
    rcases selectTargetFold_sound u units none v p.2
        (by rw [← hp]; exact hfold) with h1 | h1
    · exact absurd h1 (by simp)
    · exact h1

/-- C5 witness: the amended statement at a concrete pass in which the
de-stealthed enemy is selected. -/
theorem C5_targeting_skips_stealth_witness :
    tgtNoStealth ∈ [tgtSeeker, tgtNoStealth] ∧
    tgtNoStealth.stealth = none ∧
    tgtNoStealth.team ≠ tgtSeeker.team ∧
    tgtNoStealth.id ≠ tgtSeeker.id :=
  C5_targeting_skips_stealth [tgtSeeker, tgtNoStealth] tgtSeeker tgtNoStealth
    (by decide)

/-- C6 counterexample: moving a unit onto its own (occupied, valid) cell
returns `true`, although the claim demands `false` whenever the destination
is occupied. -/
theorem C6_move_unit_self_counterexample :
    goccupied ([(⟨0, 0⟩, 1)] : Grid) ⟨0, 0⟩ = true ∧
    is_valid_position ⟨0, 0⟩ = true ∧
    (move_unit ([(⟨0, 0⟩, 1)] : Grid) ⟨0, 0⟩ ⟨0, 0⟩).1 = true := by
  decide

/-- C6 amended: `move_unit src dst` returns `false` and leaves every cell's
occupancy unchanged whenever `dst` is out of bounds or `dst ≠ src` is
occupied (when `dst = src` is the mover's own cell the move succeeds
trivially); any `false` return leaves the grid unchanged; and every
successful move conserves the number of occupied cells, transferring the
unit from `src` to `dst`. -/
theorem C6_move_unit (g : Grid) (src dst : HexPosition) (hnd : keysNodup g) :
    ((is_valid_position dst = false ∨ (dst ≠ src ∧ goccupied g dst = true)) →
      (move_unit g src dst).1 = false) ∧
    ((move_unit g src dst).1 = false →
      ∀ p, glookup (move_unit g src dst).2 p = glookup g p) ∧
    ((move_unit g src dst).1 = true →
      (move_unit g src dst).2.length = g.length ∧
      glookup (move_unit g src dst).2 dst = glookup g src ∧
      (dst ≠ src → glookup (move_unit g src dst).2 src = none) ∧
      ∀ p, p ≠ src → p ≠ dst → glookup (move_unit g src dst).2 p = glookup g p) := by
  cases hsrc : glookup g src with
  | none =>
    refine ⟨fun _ => by simp [move_unit, hsrc], fun _ p => by simp [move_unit, hsrc],
      fun htrue => ?_⟩
    simp [move_unit, hsrc] at htrue
  | some entity =>
    by_cases hcond : goccupied (gerase g src) dst = false ∧ is_valid_position dst = true
    · have hmove : move_unit g src dst = (true, (dst, entity) :: gerase g src) := by
        simp [move_unit, hsrc, hcond]
      refine ⟨?_, ?_, ?_⟩
      · rintro (hval | ⟨hne, hocc⟩)
        · rw [hcond.2] at hval; exact absurd hval (by simp)
        · have : goccupied (gerase g src) dst = true := by
            unfold goccupied
            rw [glookup_gerase_ne g hne]
            unfold goccupied at hocc
            exact hocc
          rw [hcond.1] at this
          exact absurd this (by simp)
      · intro hfalse
        rw [hmove] at hfalse
        exact absurd hfalse (by simp)
      · intro _
        rw [hmove]
        refine ⟨?_, ?_, ?_, ?_⟩
        · simpa [List.length_cons] using gerase_length g src entity hnd hsrc
        · simp [glookup, hsrc]
        · intro hne
          have h1 : dst ≠ src := hne
          simp only [glookup, if_neg (fun hc : dst = src => h1 hc)]
          exact glookup_gerase_self g src
        · intro p hpsrc hpdst
          simp only [glookup, if_neg (fun hc : dst = p => hpdst hc.symm)]
          exact glookup_gerase_ne g hpsrc
    · have hmove : move_unit g src dst = (false, (src, entity) :: gerase g src) := by
        simp [move_unit, hsrc, hcond]
      refine ⟨fun _ => by rw [hmove], ?_, ?_⟩
      · intro _ p
        rw [hmove]
        by_cases hp : p = src
        · subst hp
          simp [glookup, hsrc]
        · simp only [glookup, if_neg (fun hc : src = p => hp hc.symm)]
          exact glookup_gerase_ne g hp
      · intro htrue
        rw [hmove] at htrue
        exact absurd htrue (by simp)

/-- C6 witness: a successful concrete move from `(0,0)` to `(1,0)` conserves
the occupied-cell count and transfers the unit. -/
theorem C6_move_unit_witness :
    (move_unit ([(⟨0, 0⟩, 1)] : Grid) ⟨0, 0⟩ ⟨1, 0⟩).2.length =
      ([(⟨0, 0⟩, 1)] : Grid).length ∧
    glookup (move_unit ([(⟨0, 0⟩, 1)] : Grid) ⟨0, 0⟩ ⟨1, 0⟩).2 ⟨1, 0⟩ =
      glookup ([(⟨0, 0⟩, 1)] : Grid) ⟨0, 0⟩ := by
  have h := (C6_move_unit ([(⟨0, 0⟩, 1)] : Grid) ⟨0, 0⟩ ⟨1, 0⟩ (by
    simp [keysNodup])).2.2 (by decide)
  exact ⟨h.1, h.2.1⟩

/-- C7: on a run where the game has not ended, if `current_wave ≥ 10`, no
enemy unit is alive and `wave_active` is false, the evaluator sets
`game_ended = true`, `victory = true` and `waves_completed = current_wave`;
and once `game_ended` is true the evaluator leaves the `GameResult` resource
unchanged. -/
theorem C7_victory_and_terminal (gr : GameResult) (units : List (Team × ℤ))
    (wm : WaveManager) (delta : ℚ) :
    (gr.game_ended = false → 10 ≤ wm.current_wave → enemyCount units = 0 →
      wm.wave_active = false →
      (check_game_result gr units wm delta).game_ended = true ∧
      (check_game_result gr units wm delta).victory = true ∧
      (check_game_result gr units wm delta).waves_completed = wm.current_wave) ∧
    (gr.game_ended = true → check_game_result gr units wm delta = gr) := by
  constructor
  · intro hend h10 hec hwa
    have hcond : 10 ≤ wm.current_wave ∧ enemyCount units = 0 ∧
        wm.wave_active = false := ⟨h10, hec, hwa⟩
    simp only [check_game_result, hend, Bool.false_eq_true, if_false, if_pos hcond]
    refine ⟨?_, ?_, ?_⟩ <;> trivial
  · intro hend
    simp [check_game_result, hend]

/-- C7 witness: concrete instances for both conjuncts — a 10th-wave state with
no enemies yields victory, and an already-ended result is left unchanged. -/
theorem C7_victory_and_terminal_witness :
    (check_game_result gameResultDefault [(Team.Player, 0)]
      { waveManagerDefault with current_wave := 10 } 0).victory = true ∧
    check_game_result { gameResultDefault with game_ended := true }
      [(Team.Player, 0)] { waveManagerDefault with current_wave := 10 } 0 =
      { gameResultDefault with game_ended := true } := by
  constructor
  · exact (C7_victory_and_terminal gameResultDefault [(Team.Player, 0)]
      { waveManagerDefault with current_wave := 10 } 0).1 rfl (by norm_num)
      (by decide) rfl |>.2.1
  · exact (C7_victory_and_terminal { gameResultDefault with game_ended := true }
      [(Team.Player, 0)] { waveManagerDefault with current_wave := 10 } 0).2 rfl

end PT
